import Mathlib

/-
Verification of the prover/mining subsystem of anf-snarkOS
(src/network/prover.rs), as a shallow embedding: the prover's visible
state (memory pool, status flag, terminator bit) is explicit, and the
results of the external collaborators (ledger reader, peer router,
ledger router, the mining computation) are passed in as parameters.
-/

namespace Snarkos

/-- A transaction, opaque except for its unique identifier
(spec section 3: a transaction has a unique identifier and is immutable). -/
structure Transaction where
  transaction_id : Nat
deriving DecidableEq, Repr

/-- A block, opaque except for the list of transactions it carries. -/
structure Block where
  transactions : List Transaction
deriving DecidableEq, Repr

/-- Modelled from the spec: the snarkVM MemoryPool type is outside this
repository; spec section 4.1 specifies it as a mapping from transaction
identifier to transaction (keys unique, order irrelevant), here a list of
transactions with distinct identifiers. -/
abbrev MemoryPool := List Transaction

/-- Modelled from the spec: MemoryPool.new() returns an empty pool. -/
def MemoryPool.new : MemoryPool := []

/-- Modelled from the spec: add_transaction(tx) fails if the transaction
is already present (identified by its identifier); on success it inserts
the transaction by identifier, with no other side effect. -/
def MemoryPool.add_transaction (pool : MemoryPool) (tx : Transaction) :
    Except String MemoryPool :=
  if pool.any (fun t => t.transaction_id == tx.transaction_id) then
    Except.error "the transaction already exists in the memory pool"
  else
    Except.ok (pool ++ [tx])

/-- Modelled from the spec: remove_transactions removes every entry whose
identifier matches one of the given transactions; transactions not present
are silently ignored, without error. -/
def MemoryPool.remove_transactions (pool : MemoryPool) (txs : List Transaction) :
    MemoryPool :=
  pool.filter (fun t => !(txs.any (fun r => r.transaction_id == t.transaction_id)))

/-- Modelled from the spec: transactions() returns a snapshot (a copy) of
the pool's transactions. -/
def MemoryPool.transactions (pool : MemoryPool) : List Transaction := pool

/-- Modelled from the spec: the node-wide operating mode held by
helpers::Status (declared in this repository but not under src/), with at
least the variants Ready, Mining and Peering. -/
inductive State where
  | Ready
  | Mining
  | Peering
deriving DecidableEq, Repr

/-- Modelled from the spec: the atomic query predicate Status.is_ready(). -/
def State.is_ready (s : State) : Bool := s == State.Ready

/-- Modelled from the spec: the atomic query predicate Status.is_peering(). -/
def State.is_peering (s : State) : Bool := s == State.Peering

/-- The state of the Prover aggregate that the claims are about: the
memory pool, the shared status flag and the shared terminator bit
(fields memory_pool, status, terminator of struct Prover in
src/network/prover.rs). -/
structure ProverState where
  memory_pool : MemoryPool
  status : State
  terminator : Bool
deriving DecidableEq, Repr

/-- Translation of enum ProverRequest (src/network/prover.rs, lines 56-61);
peer addresses are abstracted to naturals. -/
inductive ProverRequest where
  | MemoryPoolClear (block : Option Block)
  | UnconfirmedTransaction (peer_ip : Nat) (transaction : Transaction)
deriving DecidableEq, Repr

/-- The outgoing requests the prover emits to its routers: a
PeersRequest.MessagePropagate carrying an unconfirmed transaction (line
238) and a LedgerRequest.UnconfirmedBlock carrying a mined block
(line 177). -/
inductive Emitted where
  | MessagePropagate (peer_ip : Nat) (transaction : Transaction)
  | UnconfirmedBlock (local_ip : Nat) (block : Block)
deriving DecidableEq, Repr

/-- Translation of Prover::add_unconfirmed_transaction
(src/network/prover.rs, lines 228-246). The parameter contains is the
result of the ledger query ledger_reader.contains_transaction(tx.id);
send_ok tells whether the peers_router.send of the propagation request
succeeds (a failed send is only logged, so it does not influence the
result). Returns the new prover state together with the emitted requests. -/
def Prover.add_unconfirmed_transaction (contains : Except String Bool)
    (send_ok : Bool) (s : ProverState) (peer_ip : Nat) (tx : Transaction) :
    ProverState × List Emitted :=
  match contains with
  | Except.ok false =>
      match s.memory_pool.add_transaction tx with
      | Except.ok pool =>
          ({ s with memory_pool := pool },
            [Emitted.MessagePropagate peer_ip tx])
      | Except.error _ => (s, [])
  | _ => (s, [])

/-- Translation of Prover::update (src/network/prover.rs, lines 209-223):
MemoryPoolClear(Some(block)) removes the block's transactions from the
pool, MemoryPoolClear(None) replaces the pool with a fresh empty pool, and
UnconfirmedTransaction is delegated to add_unconfirmed_transaction only
when the status is not Peering. -/
def Prover.update (contains : Except String Bool) (send_ok : Bool)
    (s : ProverState) (request : ProverRequest) : ProverState × List Emitted :=
  match request with
  | ProverRequest.MemoryPoolClear (some block) =>
      ({ s with
          memory_pool := s.memory_pool.remove_transactions block.transactions }, [])
  | ProverRequest.MemoryPoolClear none =>
      ({ s with memory_pool := MemoryPool.new }, [])
  | ProverRequest.UnconfirmedTransaction peer_ip tx =>
      if !s.status.is_peering then
        Prover.add_unconfirmed_transaction contains send_ok s peer_ip tx
      else (s, [])

/-- The possible settlements of one mining job (lines 173-183): success
with a mined block (Ok(Ok(block))), a domain error from the mining
computation (Ok(Err(e))), or a task-level failure of the worker task
itself (Err(e)). -/
inductive MineOutcome where
  | success (block : Block)
  | mineError (message : String)
  | taskError (message : String)
deriving DecidableEq, Repr

/-- The gate of the mining scheduler loop (line 147):
the job runs only when the terminator is not set and the status is ready. -/
def Prover.miner_gate (s : ProverState) : Bool :=
  !s.terminator && s.status.is_ready

/-- The start of a mining job (line 149): status.update(State::Mining)
before the job is submitted to the worker pool. -/
def Prover.miner_start (s : ProverState) : ProverState :=
  { s with status := State.Mining }

/-- The settlement of a mining job (lines 170-183): the status is set
back to Ready before the result is inspected; on success a
LedgerRequest.UnconfirmedBlock naming the local node and the mined block
is emitted to the ledger router (a failed send is only logged, hence
send_ok does not influence the result); a domain or task-level failure is
only traced. -/
def Prover.miner_settle (outcome : MineOutcome) (send_ok : Bool)
    (local_ip : Nat) (s : ProverState) : ProverState × List Emitted :=
  let s' := { s with status := State.Ready }
  match outcome with
  | MineOutcome.success block => (s', [Emitted.UnconfirmedBlock local_ip block])
  | MineOutcome.mineError _ => (s', [])
  | MineOutcome.taskError _ => (s', [])

/-- One tick of the mining scheduler loop (lines 145-188): if the gate
holds, set the status to Mining, submit the job and settle it with the
given outcome; otherwise skip the iteration with no state change and no
emission. -/
def Prover.miner_tick (outcome : MineOutcome) (send_ok : Bool)
    (local_ip : Nat) (s : ProverState) : ProverState × List Emitted :=
  if Prover.miner_gate s then
    Prover.miner_settle outcome send_ok local_ip (Prover.miner_start s)
  else (s, [])

/-- The number of worker threads of the dedicated miner thread pool
(src/network/prover.rs, line 103): (num_cpus::get() / 8 * 2).max(1),
where division is integer (floor) division. -/
def miner_pool_num_threads (available_cores : Nat) : Nat :=
  max (available_cores / 8 * 2) 1

/-- The per-worker stack size of the miner thread pool, in bytes
(src/network/prover.rs, line 102): stack_size(8 * 1024 * 1024). -/
def miner_pool_stack_size : Nat := 8 * 1024 * 1024

/-! Helper lemmas shared by the claim theorems. -/

/-- An admission attempt emits at most one request. -/
theorem add_unconfirmed_emit_length (contains : Except String Bool)
    (send_ok : Bool) (s : ProverState) (peer_ip : Nat) (tx : Transaction) :
    (Prover.add_unconfirmed_transaction contains send_ok s peer_ip tx).2.length ≤ 1 := by
  unfold Prover.add_unconfirmed_transaction
  rcases contains with e | b
  · simp
  · rcases b with _ | _
    · rcases h : s.memory_pool.add_transaction tx with e | pool <;> simp [h]
    · simp

/-- Processing any single request emits at most one request. -/
theorem update_emit_length (contains : Except String Bool) (send_ok : Bool)
    (s : ProverState) (r : ProverRequest) :
    (Prover.update contains send_ok s r).2.length ≤ 1 := by
  unfold Prover.update
  rcases r with b | ⟨p, tx⟩
  · rcases b with _ | blk <;> simp
  · by_cases h : s.status.is_peering
    · simp [h]
    · simpa [h] using add_unconfirmed_emit_length contains send_ok s p tx

/-- Neither request handler ever changes the status flag. -/
theorem add_unconfirmed_status (contains : Except String Bool) (send_ok : Bool)
    (s : ProverState) (peer_ip : Nat) (tx : Transaction) :
    (Prover.add_unconfirmed_transaction contains send_ok s peer_ip tx).1.status
      = s.status := by
  unfold Prover.add_unconfirmed_transaction
  rcases contains with e | b
  · rfl
  · rcases b with _ | _
    · rcases h : s.memory_pool.add_transaction tx with e | pool <;> simp [h]
    · rfl

/-- If an admission attempt emitted anything, then the ledger query
returned Ok(false) and the transaction was appended to the pool. -/
theorem add_unconfirmed_emitted (contains : Except String Bool) (send_ok : Bool)
    (s : ProverState) (peer_ip : Nat) (tx : Transaction)
    (h : (Prover.add_unconfirmed_transaction contains send_ok s peer_ip tx).2 ≠ []) :
    contains = Except.ok false ∧
    (Prover.add_unconfirmed_transaction contains send_ok s peer_ip tx).1.memory_pool
      = s.memory_pool ++ [tx] := by
  unfold Prover.add_unconfirmed_transaction at h ⊢
  rcases contains with e | b
  · simp at h
  · rcases b with _ | _
    · rcases hadd : s.memory_pool.add_transaction tx with e | pool
      · simp [hadd] at h
      · unfold MemoryPool.add_transaction at hadd
        by_cases hc : s.memory_pool.any
            (fun t => t.transaction_id == tx.transaction_id)
        · simp [hc] at hadd
        · simp only [hc] at hadd
          simp only [Bool.false_eq_true, if_false, Except.ok.injEq] at hadd
          simp [hadd]
    · simp at h

/-- Admitting a transaction whose identifier is already in the pool
changes nothing and emits nothing, whatever the ledger answered. -/
theorem add_unconfirmed_duplicate (contains : Except String Bool)
    (send_ok : Bool) (s : ProverState) (peer_ip : Nat) (tx : Transaction)
    (h : s.memory_pool.any (fun t => t.transaction_id == tx.transaction_id) = true) :
    Prover.add_unconfirmed_transaction contains send_ok s peer_ip tx = (s, []) := by
  unfold Prover.add_unconfirmed_transaction
  rcases contains with e | b
  · rfl
  · rcases b with _ | _
    · simp [MemoryPool.add_transaction, h]
    · rfl

/-- Unless the ledger query returned Ok(false), the admission routine is
a no-op. -/
theorem add_unconfirmed_skip (contains : Except String Bool)
    (send_ok : Bool) (s : ProverState) (peer_ip : Nat) (tx : Transaction)
    (h : contains ≠ Except.ok false) :
    Prover.add_unconfirmed_transaction contains send_ok s peer_ip tx = (s, []) := by
  unfold Prover.add_unconfirmed_transaction
  rcases contains with e | b
  · rfl
  · rcases b with _ | _
    · exact absurd rfl h
    · rfl

/-! The claim theorems. -/

/-- C1: in unconfirmed-transaction admission, whenever the ledger query
contains_transaction(tx.id) does not return the explicit result Ok(false)
— that is, it returns Ok(true) or an error — the memory pool is left
unchanged and no propagation request is emitted. -/
theorem C1_admission_only_on_ok_false (contains : Except String Bool)
    (send_ok : Bool) (s : ProverState) (peer_ip : Nat) (tx : Transaction)
    (h : contains ≠ Except.ok false) :
    Prover.add_unconfirmed_transaction contains send_ok s peer_ip tx = (s, []) :=
  add_unconfirmed_skip contains send_ok s peer_ip tx h

/-- C1 witness: with the ledger reporting Ok(true) on a concrete state,
the admission attempt changes nothing and emits nothing. -/
theorem C1_admission_only_on_ok_false_witness :
    Prover.add_unconfirmed_transaction (Except.ok true) true
        ⟨[], State.Ready, false⟩ 0 ⟨5⟩
      = (⟨[], State.Ready, false⟩, []) :=
  C1_admission_only_on_ok_false (Except.ok true) true
    ⟨[], State.Ready, false⟩ 0 ⟨5⟩ (by simp)

/-- C2: a mining-scheduler tick starts a job iff the terminator is false
and the status is Ready; whenever the status is not Ready the gate is
closed regardless of the terminator; and a tick whose gate is closed
changes no state and emits nothing. -/
theorem C2_scheduler_gate (outcome : MineOutcome) (send_ok : Bool)
    (local_ip : Nat) (s : ProverState) :
    (Prover.miner_gate s = true ↔ (s.terminator = false ∧ s.status = State.Ready)) ∧
    (s.status ≠ State.Ready → Prover.miner_gate s = false) ∧
    (Prover.miner_gate s = false →
      Prover.miner_tick outcome send_ok local_ip s = (s, [])) := by
  refine ⟨?_, ?_, ?_⟩
  · unfold Prover.miner_gate State.is_ready
    rcases s with ⟨pool, st, term⟩
    rcases term with _ | _ <;> rcases st <;> simp
  · intro h
    unfold Prover.miner_gate State.is_ready
    rcases hst : s.status <;> simp_all
  · intro h
    unfold Prover.miner_tick
    simp [h]

/-- C2 witness: on a concrete state whose status is Mining, the gate is
closed even though the terminator is false, and the tick is a no-op. -/
theorem C2_scheduler_gate_witness :
    Prover.miner_gate ⟨[], State.Mining, false⟩ = false ∧
    Prover.miner_tick (MineOutcome.success ⟨[]⟩) true 9 ⟨[], State.Mining, false⟩
      = (⟨[], State.Mining, false⟩, []) :=
  ⟨(C2_scheduler_gate (MineOutcome.success ⟨[]⟩) true 9
      ⟨[], State.Mining, false⟩).2.1 (by simp),
   (C2_scheduler_gate (MineOutcome.success ⟨[]⟩) true 9
      ⟨[], State.Mining, false⟩).2.2
     ((C2_scheduler_gate (MineOutcome.success ⟨[]⟩) true 9
        ⟨[], State.Mining, false⟩).2.1 (by simp))⟩

/-- C3: for a tick whose gate is open, the status is set to Mining before
the job is submitted; after the job settles — success, domain error, or
task-level failure — the status is unconditionally Ready; and the
block-submission request to the ledger router is emitted exactly in the
success case. -/
theorem C3_job_lifecycle (outcome : MineOutcome) (send_ok : Bool)
    (local_ip : Nat) (s : ProverState) (h : Prover.miner_gate s = true) :
    (Prover.miner_start s).status = State.Mining ∧
    Prover.miner_tick outcome send_ok local_ip s
      = Prover.miner_settle outcome send_ok local_ip (Prover.miner_start s) ∧
    (Prover.miner_tick outcome send_ok local_ip s).1.status = State.Ready ∧
    (Prover.miner_tick outcome send_ok local_ip s).2
      = (match outcome with
         | MineOutcome.success b => [Emitted.UnconfirmedBlock local_ip b]
         | MineOutcome.mineError _ => []
         | MineOutcome.taskError _ => []) := by
  refine ⟨rfl, ?_, ?_, ?_⟩
  · unfold Prover.miner_tick
    simp [h]
  · unfold Prover.miner_tick
    simp only [h, if_true]
    unfold Prover.miner_settle
    rcases outcome <;> rfl
  · unfold Prover.miner_tick
    simp only [h, if_true]
    unfold Prover.miner_settle
    rcases outcome <;> rfl

/-- C3 witness: on a concrete Ready state with the terminator clear and a
task-level failure outcome, the tick ends with status Ready and emits
nothing. -/
theorem C3_job_lifecycle_witness :
    (Prover.miner_tick (MineOutcome.taskError "aborted") false 9
        ⟨[⟨2⟩], State.Ready, false⟩).1.status = State.Ready :=
  (C3_job_lifecycle (MineOutcome.taskError "aborted") false 9
      ⟨[⟨2⟩], State.Ready, false⟩ (by rfl)).2.2.1

/-- C4: processing MemoryPoolClear(Some(B)) maps the pool P to the set
difference of P and the transactions of B: a transaction is in the
resulting pool iff it was in P and its identifier is not carried by B
(so transactions of B absent from P are ignored without error, and no
other entry is affected); nothing is emitted. -/
theorem C4_clear_block (contains : Except String Bool) (send_ok : Bool)
    (s : ProverState) (b : Block) :
    (Prover.update contains send_ok s
        (ProverRequest.MemoryPoolClear (some b))).1.memory_pool
      = s.memory_pool.remove_transactions b.transactions ∧
    (∀ tx : Transaction,
      tx ∈ (Prover.update contains send_ok s
          (ProverRequest.MemoryPoolClear (some b))).1.memory_pool ↔
        tx ∈ s.memory_pool ∧
          tx.transaction_id ∉ b.transactions.map Transaction.transaction_id) ∧
    (Prover.update contains send_ok s
        (ProverRequest.MemoryPoolClear (some b))).2 = [] := by
  refine ⟨rfl, ?_, rfl⟩
  intro tx
  show tx ∈ s.memory_pool.remove_transactions b.transactions ↔ _
  unfold MemoryPool.remove_transactions
  simp [List.mem_filter, List.mem_map]

/-- C5: processing MemoryPoolClear(None) replaces the pool with a fresh
empty pool, so the pool is empty afterward regardless of prior contents;
nothing is emitted and the status is untouched. -/
theorem C5_clear_all (contains : Except String Bool) (send_ok : Bool)
    (s : ProverState) :
    (Prover.update contains send_ok s
        (ProverRequest.MemoryPoolClear none)).1.memory_pool = MemoryPool.new ∧
    (Prover.update contains send_ok s
        (ProverRequest.MemoryPoolClear none)).1.memory_pool = [] ∧
    (Prover.update contains send_ok s
        (ProverRequest.MemoryPoolClear none)).2 = [] ∧
    (Prover.update contains send_ok s
        (ProverRequest.MemoryPoolClear none)).1.status = s.status :=
  ⟨rfl, rfl, rfl, rfl⟩

/-- C6: an UnconfirmedTransaction(peer, tx) request is processed —
admission attempted, possibly propagated — exactly when is_peering() is
false: while Peering it is silently dropped with no change to the pool
and no emission, and otherwise it is delegated to the admission routine. -/
theorem C6_peering_drop (contains : Except String Bool) (send_ok : Bool)
    (s : ProverState) (peer_ip : Nat) (tx : Transaction) :
    (s.status.is_peering = true →
      Prover.update contains send_ok s
        (ProverRequest.UnconfirmedTransaction peer_ip tx) = (s, [])) ∧
    (s.status.is_peering = false →
      Prover.update contains send_ok s
          (ProverRequest.UnconfirmedTransaction peer_ip tx)
        = Prover.add_unconfirmed_transaction contains send_ok s peer_ip tx) := by
  constructor
  · intro h
    unfold Prover.update
    simp [h]
  · intro h
    unfold Prover.update
    simp [h]

/-- C6 witness: on a concrete Peering state the request is dropped, and
on a concrete Ready state it is handed to the admission routine. -/
theorem C6_peering_drop_witness :
    Prover.update (Except.ok false) true ⟨[], State.Peering, false⟩
        (ProverRequest.UnconfirmedTransaction 4 ⟨7⟩)
      = (⟨[], State.Peering, false⟩, []) ∧
    Prover.update (Except.ok false) true ⟨[], State.Ready, false⟩
        (ProverRequest.UnconfirmedTransaction 4 ⟨7⟩)
      = Prover.add_unconfirmed_transaction (Except.ok false) true
          ⟨[], State.Ready, false⟩ 4 ⟨7⟩ :=
  ⟨(C6_peering_drop (Except.ok false) true ⟨[], State.Peering, false⟩ 4 ⟨7⟩).1
      (by rfl),
   (C6_peering_drop (Except.ok false) true ⟨[], State.Ready, false⟩ 4 ⟨7⟩).2
      (by rfl)⟩

/-- C7: whenever add_transaction succeeds for an admitted transaction,
exactly one propagation request is emitted, naming the originating peer
and carrying the transaction — for every value of send_ok, so a failed
propagation send does not roll the pool mutation back — and the
transaction is in the resulting pool. -/
theorem C7_propagate_on_success (send_ok : Bool) (s : ProverState)
    (peer_ip : Nat) (tx : Transaction) (pool : MemoryPool)
    (h : s.memory_pool.add_transaction tx = Except.ok pool) :
    Prover.add_unconfirmed_transaction (Except.ok false) send_ok s peer_ip tx
      = ({ s with memory_pool := pool }, [Emitted.MessagePropagate peer_ip tx]) ∧
    tx ∈ pool := by
  constructor
  · unfold Prover.add_unconfirmed_transaction
    simp [h]
  · unfold MemoryPool.add_transaction at h
    by_cases hc : s.memory_pool.any (fun t => t.transaction_id == tx.transaction_id)
    · simp [hc] at h
    · simp only [hc] at h
      simp only [Bool.false_eq_true, if_false, Except.ok.injEq] at h
      simp [← h]

/-- C7 witness: on a concrete empty pool, with the propagation send
failing, the transaction is admitted and exactly one propagation request
naming the peer is emitted. -/
theorem C7_propagate_on_success_witness :
    Prover.add_unconfirmed_transaction (Except.ok false) false
        ⟨[], State.Ready, false⟩ 4 ⟨3⟩
      = (⟨[⟨3⟩], State.Ready, false⟩, [Emitted.MessagePropagate 4 ⟨3⟩]) ∧
    Transaction.mk 3 ∈ ([⟨3⟩] : MemoryPool) :=
  C7_propagate_on_success false ⟨[], State.Ready, false⟩ 4 ⟨3⟩ [⟨3⟩] (by rfl)

/-- C8: given that add_transaction rejects an identifier already in the
pool, processing two UnconfirmedTransaction requests carrying the same
transaction identifier — with the ledger's answer for that identifier
the same for both queries, the ledger being unchanged between the two
sequential requests — admits at most once: the second submission leaves
the state exactly as the first left it and emits nothing, so at most one
propagation request is emitted in total. -/
theorem C8_duplicate_submission (contains : Except String Bool)
    (ok1 ok2 : Bool) (s : ProverState) (peer1 peer2 : Nat)
    (tx1 tx2 : Transaction)
    (h : tx1.transaction_id = tx2.transaction_id) :
    Prover.update contains ok2
        (Prover.update contains ok1 s
          (ProverRequest.UnconfirmedTransaction peer1 tx1)).1
        (ProverRequest.UnconfirmedTransaction peer2 tx2)
      = ((Prover.update contains ok1 s
            (ProverRequest.UnconfirmedTransaction peer1 tx1)).1, []) ∧
    ((Prover.update contains ok1 s
        (ProverRequest.UnconfirmedTransaction peer1 tx1)).2
      ++ (Prover.update contains ok2
            (Prover.update contains ok1 s
              (ProverRequest.UnconfirmedTransaction peer1 tx1)).1
            (ProverRequest.UnconfirmedTransaction peer2 tx2)).2).length ≤ 1 := by
  have second_noop :
      Prover.update contains ok2
          (Prover.update contains ok1 s
            (ProverRequest.UnconfirmedTransaction peer1 tx1)).1
          (ProverRequest.UnconfirmedTransaction peer2 tx2)
        = ((Prover.update contains ok1 s
              (ProverRequest.UnconfirmedTransaction peer1 tx1)).1, []) := by
    by_cases hp : s.status.is_peering
    · have hfst : Prover.update contains ok1 s
          (ProverRequest.UnconfirmedTransaction peer1 tx1) = (s, []) := by
        unfold Prover.update; simp [hp]
      rw [hfst]
      unfold Prover.update
      simp [hp]
    · have hfst : Prover.update contains ok1 s
          (ProverRequest.UnconfirmedTransaction peer1 tx1)
            = Prover.add_unconfirmed_transaction contains ok1 s peer1 tx1 := by
        unfold Prover.update; simp [hp]
      rw [hfst]
      have hstat := add_unconfirmed_status contains ok1 s peer1 tx1
      set s1 := (Prover.add_unconfirmed_transaction contains ok1 s peer1 tx1).1
        with hs1
      have hp1 : ¬ s1.status.is_peering = true := by
        rw [hstat]; exact hp
      have hsnd : Prover.update contains ok2 s1
          (ProverRequest.UnconfirmedTransaction peer2 tx2)
            = Prover.add_unconfirmed_transaction contains ok2 s1 peer2 tx2 := by
        unfold Prover.update; simp [hp1]
      rw [hsnd]
      rcases hc : contains with e | b
      · exact add_unconfirmed_skip (Except.error e) ok2 s1 peer2 tx2 (by simp)
      · rcases b with _ | _
        · by_cases hmem : s.memory_pool.any
              (fun t => t.transaction_id == tx1.transaction_id)
          · have hdup1 := add_unconfirmed_duplicate (Except.ok false) ok1 s
              peer1 tx1 hmem
            have hpool1 : s1.memory_pool = s.memory_pool := by
              rw [hs1, hc, hdup1]
            exact add_unconfirmed_duplicate (Except.ok false) ok2 s1 peer2 tx2
              (by rw [hpool1, ← h]; exact hmem)
          · have hpool1 : s1.memory_pool = s.memory_pool ++ [tx1] := by
              rw [hs1, hc]
              unfold Prover.add_unconfirmed_transaction
              simp [MemoryPool.add_transaction, hmem]
            exact add_unconfirmed_duplicate (Except.ok false) ok2 s1 peer2 tx2
              (by rw [hpool1]; simp [List.any_append, h])
        · exact add_unconfirmed_skip (Except.ok true) ok2 s1 peer2 tx2 (by simp)
  refine ⟨second_noop, ?_⟩
  rw [second_noop]
  simpa using update_emit_length contains ok1 s
    (ProverRequest.UnconfirmedTransaction peer1 tx1)

/-- C8 witness: submitting the same concrete transaction twice from an
empty pool admits and propagates it once; the second submission is a
no-op. -/
theorem C8_duplicate_submission_witness :
    Prover.update (Except.ok false) true
        (Prover.update (Except.ok false) true ⟨[], State.Ready, false⟩
          (ProverRequest.UnconfirmedTransaction 1 ⟨6⟩)).1
        (ProverRequest.UnconfirmedTransaction 2 ⟨6⟩)
      = ((Prover.update (Except.ok false) true ⟨[], State.Ready, false⟩
            (ProverRequest.UnconfirmedTransaction 1 ⟨6⟩)).1, []) ∧
    ((Prover.update (Except.ok false) true ⟨[], State.Ready, false⟩
        (ProverRequest.UnconfirmedTransaction 1 ⟨6⟩)).2
      ++ (Prover.update (Except.ok false) true
            (Prover.update (Except.ok false) true ⟨[], State.Ready, false⟩
              (ProverRequest.UnconfirmedTransaction 1 ⟨6⟩)).1
            (ProverRequest.UnconfirmedTransaction 2 ⟨6⟩)).2).length ≤ 1 :=
  C8_duplicate_submission (Except.ok false) true true
    ⟨[], State.Ready, false⟩ 1 2 ⟨6⟩ ⟨6⟩ (by rfl)

/-- C9: the dedicated mining thread pool is sized with
max(1, floor(available_cores / 8) * 2) worker threads — for every core
count — and a per-worker stack size of 8 MiB, that is 8388608 bytes. -/
theorem C9_pool_sizing (available_cores : Nat) :
    miner_pool_num_threads available_cores
      = max 1 (available_cores / 8 * 2) ∧
    miner_pool_stack_size = 8 * 1024 * 1024 ∧
    miner_pool_stack_size = 8388608 :=
  ⟨Nat.max_comm _ 1, rfl, rfl⟩

/-- C10: no operation of the subsystem writes the terminator flag —
update (hence add_unconfirmed_transaction) and a full mining-scheduler
tick all leave it exactly as the external controller last set it. -/
theorem C10_terminator_frame (contains : Except String Bool)
    (ok1 ok2 ok3 : Bool) (s : ProverState) (r : ProverRequest)
    (outcome : MineOutcome) (local_ip peer_ip : Nat) (tx : Transaction) :
    (Prover.update contains ok1 s r).1.terminator = s.terminator ∧
    (Prover.add_unconfirmed_transaction contains ok2 s peer_ip tx).1.terminator
      = s.terminator ∧
    (Prover.miner_tick outcome ok3 local_ip s).1.terminator = s.terminator := by
  have hadd : ∀ (c : Except String Bool) (ok : Bool) (p : Nat),
      (Prover.add_unconfirmed_transaction c ok s p tx).1.terminator
        = s.terminator := by
    intro c ok p
    unfold Prover.add_unconfirmed_transaction
    rcases c with e | b
    · rfl
    · rcases b with _ | _
      · rcases hc : s.memory_pool.add_transaction tx with e | pool <;> simp [hc]
      · rfl
  refine ⟨?_, hadd contains ok2 peer_ip, ?_⟩
  · unfold Prover.update
    rcases r with b | ⟨p, t⟩
    · rcases b with _ | blk <;> rfl
    · by_cases hp : s.status.is_peering
      · simp [hp]
      · simp only [hp, Bool.not_false, if_true]
        unfold Prover.add_unconfirmed_transaction
        rcases contains with e | b
        · rfl
        · rcases b with _ | _
          · rcases hc : s.memory_pool.add_transaction t with e | pool <;> simp [hc]
          · rfl
  · unfold Prover.miner_tick
    by_cases hg : Prover.miner_gate s
    · simp only [hg, if_true]
      unfold Prover.miner_settle Prover.miner_start
      rcases outcome <;> rfl
    · simp [hg]

end Snarkos
